import Mathlib

/-!
Verification development for the ImageNet data provider
(src/lowformer/clscore/data_provider/imagenet.py).

The module is a configuration layer: it builds transform pipelines (ordered
lists of image-transform stages) and dataset handles. We embed it shallowly:

* a transform pipeline is a `List TStage` of stage descriptors carrying the
  parameters the source passes to the external transform constructors;
* the fallible builder `build_train_transform` (which raises
  `NotImplementedError` on an unknown augmentation name) returns `Except`;
* the crop-ratio arithmetic uses exact rationals (the source computes
  `int(math.ceil(image_size / test_crop_ratio))` on Python floats; the claims
  are about the mathematical formula `ceil(s / r)`);
* Python class-attribute state is threaded explicitly through constructor
  calls via a `ClassState` record;
* helpers imported from elsewhere in the repository but absent from the given
  sources (`partial_update_config`, `val2list`, the base class fields
  `mean_std`, `active_image_size`, and `sample_val_dataset`) are modelled from
  the specification text and marked as such in their doc comments.
-/

namespace LowFormer

/-- The resize/crop configuration dict: keys `train_interpolate`,
`test_interpolate`, `test_crop_ratio`. -/
structure RRCConfig where
  train_interpolate : String
  test_interpolate : String
  test_crop_ratio : ℚ
deriving DecidableEq, Repr

/-- A caller-supplied partial resize/crop configuration: each key is optional
(a Python dict that may omit keys). -/
structure RRCOverride where
  train_interpolate : Option String
  test_interpolate : Option String
  test_crop_ratio : Option ℚ
deriving DecidableEq, Repr

/-- The class-level default `_DEFAULT_RRC_CONFIG` of `ImageNetDataProvider`. -/
def DEFAULT_RRC_CONFIG : RRCConfig :=
  { train_interpolate := "random"
    test_interpolate := "bicubic"
    test_crop_ratio := 1 }

/-- The empty partial configuration (the Python `{}` used for `rrc_config or {}`). -/
def empty_override : RRCOverride :=
  { train_interpolate := none, test_interpolate := none, test_crop_ratio := none }

/-- Modelled from the spec: `partial_update_config` lives in
`lowformer.apps.utils`, which is not among the given sources. The spec says the
constructor "merges a caller-supplied partial resize/crop config onto a
documented default ... via shallow key overlay (caller keys win, unspecified
keys keep defaults)". -/
def partial_update_config (base : RRCConfig) (ov : RRCOverride) : RRCConfig :=
  { train_interpolate := ov.train_interpolate.getD base.train_interpolate
    test_interpolate := ov.test_interpolate.getD base.test_interpolate
    test_crop_ratio := ov.test_crop_ratio.getD base.test_crop_ratio }

/-- Normalization statistics (`self.mean_std` of the external base
`DataProvider`). -/
structure MeanStd where
  mean : List ℚ
  std : List ℚ
deriving DecidableEq, Repr

/-- Modelled from the spec: the provider-level normalization statistics are
owned by the external base class ("normalize(mean, std from provider-level
stats)"); the given sources do not contain their values, and no claim depends
on them, so we fix the standard ImageNet statistics. -/
def imagenet_mean_std : MeanStd :=
  { mean := [485/1000, 456/1000, 406/1000]
    std := [229/1000, 224/1000, 225/1000] }

/-- One augmentation-spec entry (a Python dict): an operator name and its
probability parameter (`aug_op["p"]`, read only for the `erase` operator). -/
structure AugOp where
  name : String
  p : ℚ
deriving DecidableEq, Repr

/-- The `data_aug` argument: a single config dict or an ordered list of them. -/
abbrev DataAugSpec : Type := AugOp ⊕ List AugOp

/-- Modelled from the spec: `val2list` lives in `lowformer.models.utils`, which
is not among the given sources. The spec describes the augmentation spec as a
"single config or ordered list of configs"; `val2list` normalizes it to the
list form iterated by the pipeline builder. -/
def val2list : DataAugSpec → List AugOp
  | .inl a => [a]
  | .inr l => l

/-- One stage of a transform pipeline, carrying exactly the parameters the
source passes to the external transform constructor. The interpolation mode
is kept as the configured name (the source maps it with `get_interpolate`). -/
inductive TStage where
  | resize (size : ℤ) (interpolation : String)
  | centerCrop (size : ℕ)
  | myRandomResizedCrop (interpolation : String)
  | randomHorizontalFlip
  | randAug (op : AugOp) (mean : List ℚ)
  | toTensor
  | normalize (mean std : List ℚ)
  | randomErasing (p : ℚ) (device : String)
deriving DecidableEq, Repr

/-- The provider state: instance attributes set by `__init__` together with
the base-class bookkeeping fields the two transform builders read. -/
structure Provider where
  data_dir : String
  val_dir : String
  rrc_config : RRCConfig
  data_aug : Option DataAugSpec
  n_classes : ℕ
  mean_std : MeanStd
  image_size : ℕ × ℕ
  active_image_size : ℕ × ℕ
deriving DecidableEq, Repr

/-- `build_valid_transform`: picks the target size from the argument or the
active image size (Python `(image_size or self.active_image_size)[0]`; a
present size tuple is truthy), computes
`crop_size = int(math.ceil(image_size / test_crop_ratio))`, and returns
Resize(crop_size, test interpolation) → CenterCrop(image_size) → ToTensor →
Normalize(mean, std). -/
def build_valid_transform (p : Provider) (sz : Option (ℕ × ℕ)) : List TStage :=
  let image_size := (sz.getD p.active_image_size).1
  let crop_size : ℤ := Int.ceil ((image_size : ℚ) / p.rrc_config.test_crop_ratio)
  [ TStage.resize crop_size p.rrc_config.test_interpolate,
    TStage.centerCrop image_size,
    TStage.toTensor,
    TStage.normalize p.mean_std.mean p.mean_std.std ]

/-- `build_valid_transform` in explicit-state form: the method body performs no
assignment to any attribute of `self`, so the state-passing embedding returns
the provider unchanged alongside the pipeline. -/
def build_valid_transform_st (p : Provider) (sz : Option (ℕ × ℕ)) :
    List TStage × Provider :=
  (build_valid_transform p sz, p)

/-- The augmentation loop of `build_train_transform`: iterates the entries,
appending a `RandAug(aug_op, mean)` stage to the pre-tensor list for name
"randaug", appending `RandomErasing(aug_op["p"], device="cpu")` to `post_aug`
for name "erase", and raising `NotImplementedError` for any other name. -/
def process_aug (mean : List ℚ) :
    List AugOp → List TStage → List TStage →
    Except String (List TStage × List TStage)
  | [], tts, post => .ok (tts, post)
  | op :: rest, tts, post =>
    if op.name = "randaug" then
      process_aug mean rest (tts ++ [TStage.randAug op mean]) post
    else if op.name = "erase" then
      process_aug mean rest tts (post ++ [TStage.randomErasing op.p "cpu"])
    else
      .error "NotImplementedError"

/-- `build_train_transform`: starts from
MyRandomResizedCrop(train interpolation) → RandomHorizontalFlip, runs the
augmentation loop when `data_aug` is set, then appends ToTensor → Normalize
and finally the `post_aug` stages. The `image_size` argument is bound to a
local in the source (`image_size = image_size or self.image_size`) and never
used afterwards, so it does not appear on the right-hand side. -/
def build_train_transform (p : Provider) (_sz : Option (ℕ × ℕ)) :
    Except String (List TStage) :=
  let base := [TStage.myRandomResizedCrop p.rrc_config.train_interpolate,
               TStage.randomHorizontalFlip]
  let ops := match p.data_aug with
    | none => []
    | some spec => val2list spec
  match process_aug p.mean_std.mean ops base [] with
  | .error e => .error e
  | .ok (tts, post) =>
    .ok (tts ++ [TStage.toTensor, TStage.normalize p.mean_std.mean p.mean_std.std]
             ++ post)

/-- A dataset handle: an `ImageFolder` over a root directory with a transform,
or a subset produced by the base-class validation split. -/
inductive Dataset where
  | imageFolder (root : String) (transform : List TStage)
  | trainSubset (base : Dataset)
  | valSubset (base : Dataset) (transform : List TStage)
deriving DecidableEq, Repr

/-- Modelled from the spec: `sample_val_dataset` is owned by the external base
class; it "carves out a held-out validation subset from the training data
(policy owned by the external base, not this module) and returns
(train_subset, val_subset)", the validation subset using the eval transform. -/
def sample_val_dataset (train : Dataset) (valid_transform : List TStage) :
    Dataset × Dataset :=
  (Dataset.trainSubset train, Dataset.valSubset train valid_transform)

/-- Python `needle in hay` on strings: substring containment. -/
def str_contains (needle hay : String) : Bool :=
  decide (List.IsInfix needle.data hay.data)

/-- `os.path.join(a, b)` for the path components used by the source: an
absolute second component replaces the first; otherwise the components are
joined with a single separator, none added after a trailing one. -/
def os_path_join (a b : String) : String :=
  if b.startsWith "/" then b
  else if a = "" then b
  else if a.endsWith "/" then a ++ b
  else a ++ "/" ++ b

/-- `build_datasets`: builds the train transform (propagating its failure, so
no dataset is constructed on a bad augmentation name) and the eval transform,
selects the layout by the substring test `"21K" in self.data_dir` — loading
train data from `data_dir` itself and test data from `val_dir` when it holds,
from the `train` and `val` subdirectories of `data_dir` otherwise — and passes
the train dataset through the validation split of the base class. -/
def build_datasets (p : Provider) : Except String (Dataset × Dataset × Dataset) :=
  match build_train_transform p none with
  | .error e => .error e
  | .ok train_transform =>
    let valid_transform := build_valid_transform p none
    let (train_dataset, test_dataset) :=
      if str_contains "21K" p.data_dir then
        (Dataset.imageFolder p.data_dir train_transform,
         Dataset.imageFolder p.val_dir valid_transform)
      else
        (Dataset.imageFolder (os_path_join p.data_dir "train") train_transform,
         Dataset.imageFolder (os_path_join p.data_dir "val") valid_transform)
    let (train_sub, val_sub) := sample_val_dataset train_dataset valid_transform
    .ok (train_sub, val_sub, test_dataset)

/-- The class-attribute state of `ImageNetDataProvider` that construction could
in principle touch: the shared default resize/crop configuration. -/
structure ClassState where
  default_rrc_config : RRCConfig
deriving DecidableEq, Repr

/-- The class state as the module defines it. -/
def initial_class_state : ClassState :=
  { default_rrc_config := DEFAULT_RRC_CONFIG }

/-- The class attribute `data_dir = "/dataset/imagenet"`. It is read, never
assigned, by the constructor. -/
def class_data_dir : String := "/dataset/imagenet"

/-- `copy.deepcopy` on a configuration value: with value semantics in the
embedding it is the identity; its role in the source is that the merge is
applied to the copy, never to the class-level default itself. -/
def deepcopy (c : RRCConfig) : RRCConfig := c

/-- Python `arg or default` for an optional string: `None` and the empty
string are falsy and select the default. -/
def py_or_str (arg : Option String) (default : String) : String :=
  match arg with
  | none => default
  | some s => if s = "" then default else s

/-- `ImageNetDataProvider.__init__`, restricted to the arguments the claims
touch: stores `data_dir or self.data_dir`, `val_dir`, the merge of the
caller-supplied partial `rrc_config` (or `{}`) onto a deep copy of the class
default, the augmentation spec as given, and `n_classes`; the base class
records the image size. Because the merge operates on the deep copy, the
class state comes back unchanged. -/
def provider_init (st : ClassState) (data_dir : Option String)
    (rrc_config : Option RRCOverride) (data_aug : Option DataAugSpec)
    (image_size : ℕ) (val_dir : String) (n_classes : ℕ) :
    Provider × ClassState :=
  let merged := partial_update_config (deepcopy st.default_rrc_config)
    (rrc_config.getD empty_override)
  ({ data_dir := py_or_str data_dir class_data_dir
     val_dir := val_dir
     rrc_config := merged
     data_aug := data_aug
     n_classes := n_classes
     mean_std := imagenet_mean_std
     image_size := (image_size, image_size)
     active_image_size := (image_size, image_size) }, st)

/-!  Concrete providers used by witnesses and the counterexample. -/

/-- A provider constructed with all-default arguments. -/
def p_base : Provider :=
  (provider_init initial_class_state none none none 224 "" 1000).1

/-- A provider whose stored crop ratio is the negative value -1. -/
def p_cex : Provider :=
  { p_base with rrc_config := { p_base.rrc_config with test_crop_ratio := -1 } }

/-- An augmentation entry with a name outside the recognized set. -/
def op_cut : AugOp := { name := "cutout", p := 1/2 }

/-- A randaug augmentation entry. -/
def op_ra : AugOp := { name := "randaug", p := 0 }

/-- An erase augmentation entry with probability 1/4. -/
def op_er : AugOp := { name := "erase", p := 1/4 }

/-- A provider with one unrecognized augmentation entry. -/
def p_bad : Provider :=
  { p_base with data_aug := some (Sum.inl op_cut) }

/-- A provider with one randaug entry followed by one erase entry. -/
def p_mix : Provider :=
  { p_base with data_aug := some (Sum.inr [op_ra, op_er]) }

/-- The training pipeline built by the provider with the [randaug, erase]
spec. -/
def mix_full : List TStage :=
  [TStage.myRandomResizedCrop "random", TStage.randomHorizontalFlip,
   TStage.randAug op_ra imagenet_mean_std.mean, TStage.toTensor,
   TStage.normalize imagenet_mean_std.mean imagenet_mean_std.std,
   TStage.randomErasing (1/4) "cpu"]

/-- The training pipeline built by the provider with no augmentation spec. -/
def base_tt : List TStage :=
  [TStage.myRandomResizedCrop "random", TStage.randomHorizontalFlip,
   TStage.toTensor,
   TStage.normalize imagenet_mean_std.mean imagenet_mean_std.std]

/-- Auxiliary: membership of an entry with a name outside the recognized set
makes the augmentation loop fail, whatever the accumulators hold. -/
theorem process_aug_mem_bad_error (mean : List ℚ) (op : AugOp)
    (h1 : op.name ≠ "randaug") (h2 : op.name ≠ "erase") :
    ∀ ops : List AugOp, op ∈ ops → ∀ tts post,
      process_aug mean ops tts post = .error "NotImplementedError" := by
  intro ops
  induction ops with
  | nil => intro hmem; cases hmem
  | cons hd tl ih =>
    intro hmem tts post
    rcases List.mem_cons.mp hmem with rfl | hmem
    · simp [process_aug, h1, h2]
    · by_cases hr : hd.name = "randaug"
      · simpa [process_aug, hr] using ih hmem _ _
      · by_cases he : hd.name = "erase"
        · simpa [process_aug, hr, he] using ih hmem _ _
        · simp [process_aug, hr, he]

/-- Auxiliary: the shape of a successful augmentation-loop run — the
pre-tensor accumulator gains exactly the randaug stages in order and
`post_aug` gains exactly the erasing stages in order. -/
theorem process_aug_ok_shape (mean : List ℚ) :
    ∀ (ops : List AugOp) (tts post : List TStage) (res : List TStage × List TStage),
      process_aug mean ops tts post = .ok res →
      res.1 = tts ++ (ops.filter fun op => decide (op.name = "randaug")).map
                (fun op => TStage.randAug op mean) ∧
      res.2 = post ++ (ops.filter fun op => decide (op.name = "erase")).map
                (fun op => TStage.randomErasing op.p "cpu") := by
  intro ops
  induction ops with
  | nil =>
    intro tts post res h
    simp [process_aug] at h
    simp [← h]
  | cons hd tl ih =>
    intro tts post res h
    by_cases hr : hd.name = "randaug"
    · simp only [process_aug, hr, if_pos] at h
      obtain ⟨ha, hb⟩ := ih _ _ _ h
      simp [List.filter_cons, hr, ha, hb]
    · by_cases he : hd.name = "erase"
      · simp only [process_aug, hr, he, if_neg, if_pos] at h
        obtain ⟨ha, hb⟩ := ih _ _ _ h
        simp [List.filter_cons, hr, he, ha, hb]
      · simp [process_aug, hr, he] at h

/-- C1 (amended): for every provider state, every explicitly passed target
size, and a stored test_crop_ratio r with 0 < r ≤ 1, build_valid_transform is
exactly a resize of the shorter side to ceil(s / r) followed by a center-crop
of size s, tensor conversion and normalization, and ceil(s / r) ≥ s. -/
theorem C1_valid_resize_then_centercrop (p : Provider) (sz : ℕ × ℕ)
    (h0 : 0 < p.rrc_config.test_crop_ratio)
    (h1 : p.rrc_config.test_crop_ratio ≤ 1) :
    build_valid_transform p (some sz) =
      [TStage.resize (Int.ceil ((sz.1 : ℚ) / p.rrc_config.test_crop_ratio))
         p.rrc_config.test_interpolate,
       TStage.centerCrop sz.1, TStage.toTensor,
       TStage.normalize p.mean_std.mean p.mean_std.std] ∧
    (sz.1 : ℤ) ≤ Int.ceil ((sz.1 : ℚ) / p.rrc_config.test_crop_ratio) := by
  refine ⟨rfl, ?_⟩
  have hle : ((sz.1 : ℚ)) ≤ (sz.1 : ℚ) / p.rrc_config.test_crop_ratio := by
    rw [le_div_iff₀ h0]
    exact mul_le_of_le_one_right (by positivity) h1
  calc (sz.1 : ℤ) = Int.ceil ((sz.1 : ℚ)) := (Int.ceil_natCast sz.1).symm
    _ ≤ Int.ceil ((sz.1 : ℚ) / p.rrc_config.test_crop_ratio) := Int.ceil_mono hle

/-- C1 witness: the default provider stores ratio 1 and the theorem applies
at target size (224, 224). -/
theorem C1_valid_resize_then_centercrop_witness :
    (0 < p_base.rrc_config.test_crop_ratio ∧ p_base.rrc_config.test_crop_ratio ≤ 1) ∧
    (build_valid_transform p_base (some (224, 224)) =
      [TStage.resize
         (Int.ceil (((224 : ℕ) : ℚ) / p_base.rrc_config.test_crop_ratio))
         p_base.rrc_config.test_interpolate,
       TStage.centerCrop 224, TStage.toTensor,
       TStage.normalize p_base.mean_std.mean p_base.mean_std.std] ∧
    ((224 : ℕ) : ℤ) ≤
      Int.ceil (((224 : ℕ) : ℚ) / p_base.rrc_config.test_crop_ratio)) :=
  ⟨⟨by decide, by decide⟩,
   C1_valid_resize_then_centercrop p_base (224, 224) (by decide) (by decide)⟩

/-- C1 counterexample: the stored ratio -1 satisfies r ≤ 1.0, yet the resize
size is ceil(224 / -1) = -224, which is not ≥ 224 — the claim as stated fails
for a non-positive ratio. -/
theorem C1_counterexample :
    p_cex.rrc_config.test_crop_ratio ≤ 1 ∧
    build_valid_transform p_cex (some (224, 224)) =
      [TStage.resize (-224) "bicubic", TStage.centerCrop 224, TStage.toTensor,
       TStage.normalize imagenet_mean_std.mean imagenet_mean_std.std] ∧
    ¬ ((224 : ℤ) ≤ -224) := by
  refine ⟨by decide, ?_, by decide⟩
  have hr : p_cex.rrc_config.test_crop_ratio = -1 := rfl
  have hceil : Int.ceil (((224 : ℕ) : ℚ) / p_cex.rrc_config.test_crop_ratio) = -224 := by
    rw [hr, show ((224 : ℕ) : ℚ) / (-1 : ℚ) = ((-224 : ℤ) : ℚ) by norm_num,
      Int.ceil_intCast]
  simp only [build_valid_transform, Option.getD_some]
  rw [hceil]
  rfl

/-- C2: an augmentation entry whose name is outside the recognized set makes
build_train_transform fail with the unimplemented-operation error, so no
pipeline is returned, and build_datasets fails the same way before
constructing any dataset. -/
theorem C2_unknown_op_fails (p : Provider) (spec : DataAugSpec) (op : AugOp)
    (hspec : p.data_aug = some spec) (hmem : op ∈ val2list spec)
    (h1 : op.name ≠ "randaug") (h2 : op.name ≠ "erase") :
    build_train_transform p none = .error "NotImplementedError" ∧
    build_datasets p = .error "NotImplementedError" := by
  have htrain : build_train_transform p none = .error "NotImplementedError" := by
    have h := process_aug_mem_bad_error p.mean_std.mean op h1 h2 (val2list spec) hmem
      [TStage.myRandomResizedCrop p.rrc_config.train_interpolate,
       TStage.randomHorizontalFlip] []
    simp [build_train_transform, hspec, h]
  exact ⟨htrain, by simp [build_datasets, htrain]⟩

/-- C2 witness: the theorem applies to a provider carrying the single
unrecognized entry named "cutout". -/
theorem C2_unknown_op_fails_witness :
    (p_bad.data_aug = some (Sum.inl op_cut) ∧
     op_cut ∈ val2list (Sum.inl op_cut) ∧
     op_cut.name ≠ "randaug" ∧ op_cut.name ≠ "erase") ∧
    (build_train_transform p_bad none = .error "NotImplementedError" ∧
     build_datasets p_bad = .error "NotImplementedError") :=
  ⟨⟨by rfl, by simp [val2list], by decide, by decide⟩,
   C2_unknown_op_fails p_bad (Sum.inl op_cut) op_cut (by rfl)
     (by simp [val2list]) (by decide) (by decide)⟩

/-- C3: any successfully built training pipeline is exactly the geometric
stages, then the randaug stages in spec order, then tensor conversion and
normalization, and finally one random-erasing stage per erase entry in spec
order — so every erase entry contributes exactly one operator, placed after
normalization and never before tensor conversion. -/
theorem C3_pipeline_order (p : Provider) (spec : DataAugSpec) (full : List TStage)
    (hspec : p.data_aug = some spec)
    (hok : build_train_transform p none = .ok full) :
    full = [TStage.myRandomResizedCrop p.rrc_config.train_interpolate,
            TStage.randomHorizontalFlip]
        ++ ((val2list spec).filter fun op => decide (op.name = "randaug")).map
             (fun op => TStage.randAug op p.mean_std.mean)
        ++ ([TStage.toTensor, TStage.normalize p.mean_std.mean p.mean_std.std]
        ++ ((val2list spec).filter fun op => decide (op.name = "erase")).map
             (fun op => TStage.randomErasing op.p "cpu")) := by
  rw [build_train_transform, hspec] at hok
  cases hpa : process_aug p.mean_std.mean (val2list spec)
      [TStage.myRandomResizedCrop p.rrc_config.train_interpolate,
       TStage.randomHorizontalFlip] [] with
  | error e => rw [hpa] at hok; cases hok
  | ok res =>
    obtain ⟨tts, post⟩ := res
    obtain ⟨ha, hb⟩ := process_aug_ok_shape p.mean_std.mean _ _ _ _ hpa
    rw [hpa] at hok
    simp only [Except.ok.injEq] at hok
    simp only at ha hb
    rw [← hok, ha, hb]
    simp [List.append_assoc]

/-- C3 witness: the theorem applies to a provider whose spec is the list
[randaug, erase]. -/
theorem C3_pipeline_order_witness :
    (p_mix.data_aug = some (Sum.inr [op_ra, op_er]) ∧
     build_train_transform p_mix none = .ok mix_full) ∧
    mix_full =
      [TStage.myRandomResizedCrop p_mix.rrc_config.train_interpolate,
       TStage.randomHorizontalFlip]
        ++ ((val2list (Sum.inr [op_ra, op_er])).filter
              fun op => decide (op.name = "randaug")).map
             (fun op => TStage.randAug op p_mix.mean_std.mean)
        ++ ([TStage.toTensor,
             TStage.normalize p_mix.mean_std.mean p_mix.mean_std.std]
        ++ ((val2list (Sum.inr [op_ra, op_er])).filter
              fun op => decide (op.name = "erase")).map
             (fun op => TStage.randomErasing op.p "cpu")) :=
  ⟨⟨by rfl, by rfl⟩,
   C3_pipeline_order p_mix (Sum.inr [op_ra, op_er]) mix_full (by rfl) (by rfl)⟩

/-- C4: when build_train_transform succeeds, build_datasets loads the train
data from data_dir itself and the test data from val_dir when data_dir
contains "21K", and from the train and val subdirectories of data_dir
otherwise; the train dataset then passes through the validation split. -/
theorem C4_dataset_layout (p : Provider) (tt : List TStage)
    (hok : build_train_transform p none = .ok tt) :
    (str_contains "21K" p.data_dir = true →
      build_datasets p = .ok
        (Dataset.trainSubset (Dataset.imageFolder p.data_dir tt),
         Dataset.valSubset (Dataset.imageFolder p.data_dir tt)
           (build_valid_transform p none),
         Dataset.imageFolder p.val_dir (build_valid_transform p none))) ∧
    (str_contains "21K" p.data_dir = false →
      build_datasets p = .ok
        (Dataset.trainSubset
           (Dataset.imageFolder (os_path_join p.data_dir "train") tt),
         Dataset.valSubset
           (Dataset.imageFolder (os_path_join p.data_dir "train") tt)
           (build_valid_transform p none),
         Dataset.imageFolder (os_path_join p.data_dir "val")
           (build_valid_transform p none))) := by
  constructor
  · intro h21
    simp [build_datasets, hok, h21, sample_val_dataset]
  · intro h21
    simp [build_datasets, hok, h21, sample_val_dataset]

/-- C4 witness: the default provider, whose path "/dataset/imagenet" does not
contain "21K", yields the conventional subdirectory layout. -/
theorem C4_dataset_layout_witness :
    (build_train_transform p_base none = .ok base_tt ∧
     str_contains "21K" p_base.data_dir = false) ∧
    build_datasets p_base = .ok
      (Dataset.trainSubset
         (Dataset.imageFolder (os_path_join p_base.data_dir "train") base_tt),
       Dataset.valSubset
         (Dataset.imageFolder (os_path_join p_base.data_dir "train") base_tt)
         (build_valid_transform p_base none),
       Dataset.imageFolder (os_path_join p_base.data_dir "val")
         (build_valid_transform p_base none)) :=
  ⟨⟨by rfl, by decide⟩,
   (C4_dataset_layout p_base base_tt (by rfl)).2 (by decide)⟩

/-- C5: with data_aug = None the training pipeline is exactly
random-resized-crop, random-horizontal-flip, tensor conversion and
normalization — no augmentation-policy and no random-erasing stage. -/
theorem C5_no_aug_pipeline (p : Provider) (sz : Option (ℕ × ℕ))
    (h : p.data_aug = none) :
    build_train_transform p sz = .ok
      [TStage.myRandomResizedCrop p.rrc_config.train_interpolate,
       TStage.randomHorizontalFlip, TStage.toTensor,
       TStage.normalize p.mean_std.mean p.mean_std.std] := by
  simp [build_train_transform, h, process_aug]

/-- C5 witness: the default provider has data_aug = None. -/
theorem C5_no_aug_pipeline_witness :
    p_base.data_aug = none ∧
    build_train_transform p_base none = .ok
      [TStage.myRandomResizedCrop p_base.rrc_config.train_interpolate,
       TStage.randomHorizontalFlip, TStage.toTensor,
       TStage.normalize p_base.mean_std.mean p_base.mean_std.std] :=
  ⟨rfl, C5_no_aug_pipeline p_base none rfl⟩

/-- C6: construction merges the caller-supplied partial rrc_config onto the
default by shallow overlay — each stored field is the override field when
present and the default otherwise — and in particular the single override
test_crop_ratio = 9/10 keeps train_interpolate = "random" and
test_interpolate = "bicubic". -/
theorem C6_rrc_overlay (ov : RRCOverride) (dd : Option String)
    (da : Option DataAugSpec) (isz : ℕ) (vd : String) (nc : ℕ) :
    (provider_init initial_class_state dd (some ov) da isz vd nc).1.rrc_config =
      { train_interpolate := ov.train_interpolate.getD "random"
        test_interpolate := ov.test_interpolate.getD "bicubic"
        test_crop_ratio := ov.test_crop_ratio.getD 1 } ∧
    (provider_init initial_class_state dd
        (some { train_interpolate := none, test_interpolate := none,
                test_crop_ratio := some (9/10) }) da isz vd nc).1.rrc_config =
      { train_interpolate := "random", test_interpolate := "bicubic",
        test_crop_ratio := 9/10 } :=
  ⟨rfl, rfl⟩

/-- C7: build_valid_transform in explicit-state form leaves the provider
state unchanged, and a second call on the post-call state with the same
argument returns the same pipeline as the first. -/
theorem C7_valid_transform_deterministic (p : Provider) (sz : Option (ℕ × ℕ)) :
    (build_valid_transform_st p sz).2 = p ∧
    (build_valid_transform_st (build_valid_transform_st p sz).2 sz).1 =
      (build_valid_transform_st p sz).1 :=
  ⟨rfl, rfl⟩

/-- C8: the explicit image-size argument of build_train_transform has no
effect — passing any size yields the same result as passing None. -/
theorem C8_train_size_arg_unused (p : Provider) (sz : ℕ × ℕ) :
    build_train_transform p (some sz) = build_train_transform p none :=
  rfl

/-- C9: construction returns the class state unchanged (the merge operates on
a deep copy of the default), so a provider constructed afterwards with no
override still receives the documented default configuration. -/
theorem C9_default_config_preserved (ov : RRCOverride) (dd dd2 : Option String)
    (da da2 : Option DataAugSpec) (isz isz2 : ℕ) (vd vd2 : String)
    (nc nc2 : ℕ) :
    (provider_init initial_class_state dd (some ov) da isz vd nc).2 =
      initial_class_state ∧
    (provider_init (provider_init initial_class_state dd (some ov) da isz vd nc).2
        dd2 none da2 isz2 vd2 nc2).1.rrc_config =
      { train_interpolate := "random", test_interpolate := "bicubic",
        test_crop_ratio := 1 } :=
  ⟨rfl, rfl⟩

/-- C10: a None or empty data_dir argument falls back to the class default
path "/dataset/imagenet", while any non-empty argument is stored unchanged. -/
theorem C10_data_dir_default (s : String) (hs : s ≠ "")
    (rc : Option RRCOverride) (da : Option DataAugSpec) (isz : ℕ)
    (vd : String) (nc : ℕ) :
    (provider_init initial_class_state none rc da isz vd nc).1.data_dir =
      "/dataset/imagenet" ∧
    (provider_init initial_class_state (some "") rc da isz vd nc).1.data_dir =
      "/dataset/imagenet" ∧
    (provider_init initial_class_state (some s) rc da isz vd nc).1.data_dir = s := by
  refine ⟨rfl, rfl, ?_⟩
  simp [provider_init, py_or_str, hs]

/-- C10 witness: the theorem applies at the non-empty path "/data/imagenet". -/
theorem C10_data_dir_default_witness :
    ("/data/imagenet" : String) ≠ "" ∧
    ((provider_init initial_class_state none none none 224 "" 1000).1.data_dir =
      "/dataset/imagenet" ∧
     (provider_init initial_class_state (some "") none none 224 "" 1000).1.data_dir =
      "/dataset/imagenet" ∧
     (provider_init initial_class_state (some "/data/imagenet") none none
        224 "" 1000).1.data_dir = "/data/imagenet") :=
  ⟨by decide, C10_data_dir_default "/data/imagenet" (by decide) none none 224 "" 1000⟩

end LowFormer
